import Mathlib

/-!
Verification development for the faceswap-bot user session and quota
state machine.  The definitions below shallowly embed the Python source
(`bot/message_handler.py`, `research/db/db_requests.py`): machine
integers become `Int`, dates and timestamps become `Int` time units,
SQL rows become structures, and each handler or DB helper becomes a
pure state-passing function.  The model is sequential: a re-fetch of a
user row returns the current modelled state.
-/

namespace FaceswapBot

/-- Embeds the `users` table row fields that the handlers read or write
(`db_requests.py`, class `User`).  `mode` is a `String` because the code
assigns both button callback data and target-image paths to it;
`receive_target_flag` is the 0/1 `Integer` column. -/
structure UserState where
  status : String
  requests_left : Int
  targets_left : Int
  receive_target_flag : Int
  mode : String
  premium_expiration : Option Int
  last_photo_sent_timestamp : Int
  deriving DecidableEq, Repr

/-- Embeds the `premium_purchases` table row (`db_requests.py`,
class `PremiumPurchase`); dates are `Int` day numbers. -/
structure PremiumPurchase where
  purchase_date : Int
  expiration_date : Int
  targets_increment : Int
  request_increment : Int
  deriving DecidableEq, Repr

/-- A user row together with that user's premium-purchase rows. -/
structure Account where
  user : UserState
  purchases : List PremiumPurchase
  deriving DecidableEq, Repr

/-- Embeds the `ImageName` row for one processed photo: input path and
the comma-joined output list (`none` until `update_image_entry` runs). -/
structure ImageAction where
  input_image_name : String
  output_image_names : Option (List String)
  deriving DecidableEq, Repr

/-- Default user row created by `insert_user` for a first-seen user:
free status, 10 requests, 0 targets, flag off, mode 1. -/
def defaultUser : UserState :=
  { status := "free", requests_left := 10, targets_left := 0,
    receive_target_flag := 0, mode := "1", premium_expiration := none,
    last_photo_sent_timestamp := 0 }

/-- Modelled from the spec: `PREMIUM_DAYS` is imported from a constants
module that is not part of the sources; the code comments the premium
expiration assignment with "30 days for premium". -/
def PREMIUM_DAYS : Int := 30

/-- Embeds `decrement_requests_left` (`db_requests.py`): if
`requests_left > 0` subtract `n` clamping at zero, otherwise force it
to zero.  The Python coroutine is annotated `-> None` and has no
return statement. -/
def decrement_requests_left (u : UserState) (n : Int) : UserState :=
  if u.requests_left > 0 then
    { u with requests_left := max 0 (u.requests_left - n) }
  else
    { u with requests_left := 0 }

/-- The pair (updated row, Python return value) of
`decrement_requests_left`; the second component embeds the coroutine's
return value, which is always `None`. -/
def decrement_requests_left_full (u : UserState) (n : Int) :
    UserState × Option Int :=
  (decrement_requests_left u n, none)

/-- Embeds `decrement_targets_left` (`db_requests.py`): only mutates
when `targets_left > 0`, clamping at zero. -/
def decrement_targets_left (u : UserState) (n : Int) : UserState :=
  if u.targets_left > 0 then
    { u with targets_left := max 0 (u.targets_left - n) }
  else
    u

/-- Embeds `set_requests_left` (`db_requests.py`): the manual reset.
For an existing user the body assigns status and premium expiration on
the session object and then evaluates `user.premium_purchases = None`;
on the list-valued relationship that assignment raises TypeError
(Incompatible collection type: None is not list-like), the
`session.begin()` transaction rolls back, and no change is committed.
The result pairs the stored account — unchanged — with the raised
error; `number` is never committed anywhere. -/
def set_requests_left (a : Account) (number : Int) :
    Account × Option String :=
  (a, some "TypeError: Incompatible collection type: None is not list-like")

/-- Embeds `buy_premium` (`db_requests.py`): appends a purchase row with
increments +100 requests / +10 targets valid for `PREMIUM_DAYS`, adds
the increments to the counters and sets premium status. -/
def buy_premium (a : Account) (today : Int) : Account :=
  { user := { a.user with
      requests_left := a.user.requests_left + 100,
      targets_left := a.user.targets_left + 10,
      status := "premium",
      premium_expiration := some (today + PREMIUM_DAYS) },
    purchases := a.purchases ++
      [{ purchase_date := today, expiration_date := today + PREMIUM_DAYS,
         targets_increment := 10, request_increment := 100 }] }

/-- Embeds `toggle_receive_target_flag` (`db_requests.py`): writes the
given flag value (default 0 at the call sites that clear it). -/
def toggle_receive_target_flag (u : UserState) (flag : Int) : UserState :=
  { u with receive_target_flag := flag }

/-- Embeds `update_user_mode` (`db_requests.py`). -/
def update_user_mode (u : UserState) (mode : String) : UserState :=
  { u with mode := mode }

/-- Embeds the per-user body of `update_user_quotas` (`db_requests.py`):
delete the purchase rows with `expiration_date < today`, collect the
rows with `expiration_date ≥ today`; if some remain, set the counters
to the summed increments (status untouched), otherwise revert to free
status with `free_requests` requests and a cleared premium expiration
(`targets_left` untouched). -/
def update_user_quotas_user (a : Account) (free_requests : Int)
    (today : Int) : Account :=
  let kept := a.purchases.filter (fun p => decide (¬ p.expiration_date < today))
  let active := kept.filter (fun p => decide (today ≤ p.expiration_date))
  if active.isEmpty then
    { user := { a.user with
        status := "free", requests_left := free_requests,
        premium_expiration := none },
      purchases := kept }
  else
    { user := { a.user with
        requests_left := (active.map (fun p => p.request_increment)).sum,
        targets_left := (active.map (fun p => p.targets_increment)).sum },
      purchases := kept }

/-- One row of the `scheduler_logs` table. -/
structure SchedulerLogEntry where
  job_name : String
  run_datetime : Int
  deriving DecidableEq, Repr

/-- The `run_datetime` of the most recent log entry for `job`, as
selected by `log_scheduler_run` (order by `run_datetime` descending,
limit 1). -/
def last_run_datetime (logs : List SchedulerLogEntry) (job : String) :
    Option Int :=
  (logs.filter (fun e => decide (e.job_name = job))).foldl
    (fun acc e =>
      match acc with
      | none => some e.run_datetime
      | some t => some (max t e.run_datetime)) none

/-- Embeds `log_scheduler_run` (`db_requests.py`): append one run record
when there is no previous record for the job or `hour_delay` has
elapsed since the last one; otherwise leave the log unchanged. -/
def log_scheduler_run (logs : List SchedulerLogEntry) (job : String)
    (now : Int) (hour_delay : Int) : List SchedulerLogEntry :=
  match last_run_datetime logs job with
  | none => logs ++ [{ job_name := job, run_datetime := now }]
  | some t =>
      if now - t ≥ hour_delay then
        logs ++ [{ job_name := job, run_datetime := now }]
      else
        logs

/-- Embeds the whole `update_user_quotas` coroutine: sweep every user
row unconditionally, then call `log_scheduler_run` once for the job
name "update_user_quotas". -/
def update_user_quotas_job (accounts : List Account)
    (logs : List SchedulerLogEntry) (free_requests : Int) (today : Int)
    (td : Int) (log_now : Int) :
    List Account × List SchedulerLogEntry :=
  (accounts.map (fun a => update_user_quotas_user a free_requests today),
   log_scheduler_run logs "update_user_quotas" log_now td)

/-- Time units between accepted single photos
(`message_handler.py`, `DELAY_BETWEEN_IMAGES`). -/
def DELAY_BETWEEN_IMAGES : Int := 2

/-- Embeds `check_limit` (`message_handler.py`): fails when
`requests_left <= 0`. -/
def check_limit (u : UserState) : Bool :=
  if u.requests_left ≤ 0 then false else true

/-- Embeds `check_time_limit` (`message_handler.py`): premium users
always pass; otherwise the elapsed time since
`last_photo_sent_timestamp` must be at least `n_time`. -/
def check_time_limit (u : UserState) (now : Int) (n_time : Int) : Bool :=
  if u.status = "premium" then true
  else if now - u.last_photo_sent_timestamp < n_time then false
  else true

/-- Embeds `prevent_multisending` (`message_handler.py`): accepts only a
non-grouped message whose sender has no recorded send time or whose
last recorded send is at least `DELAY_BETWEEN_IMAGES` old, recording
`now` on acceptance.  Returns (new recorded send time, accepted). -/
def prevent_multisending (last_sent : Option Int) (now : Int)
    (grouped : Bool) : Option Int × Bool :=
  if grouped then (last_sent, false)
  else
    match last_sent with
    | none => (some now, true)
    | some t =>
        if now - t ≥ DELAY_BETWEEN_IMAGES then (some now, true)
        else (last_sent, false)

/-- Embeds `target_image_check` (`message_handler.py`): for a premium
user whose `receive_target_flag` is set, store the uploaded image path
as the mode and clear the flag; the `Bool` is the truthiness of the
Python return value (the path, or `None`). -/
def target_image_check (u : UserState) (input_image : String) :
    UserState × Bool :=
  if u.status = "premium" ∧ u.receive_target_flag ≠ 0 then
    (toggle_receive_target_flag (update_user_mode u input_image) 0, true)
  else
    (u, false)

/-- Embeds `set_receive_flag` (`message_handler.py`): premium users get
the flag set to 1 and a prompt for the target image; others get a
rejection reply and no state change. -/
def set_receive_flag (u : UserState) : UserState × List String :=
  if u.status = "premium" then
    (toggle_receive_target_flag u 1,
     ["Changing set to receiving a new target.\nSend target image."])
  else
    (u, ["You need to be a premium user for that. Use /buy_premium function"])

/-- Outcome of downloading the inbound photo from the chat transport. -/
inductive DownloadResult where
  | ok
  | httpError
  | exn
  deriving DecidableEq, Repr

/-- Outcome of the worker call: a successful JSON list of output image
paths, a non-200 status, or a raised exception (transport failure or
timeout). -/
inductive WorkerResult where
  | success (paths : List String)
  | httpError
  | exn
  deriving DecidableEq, Repr

/-- The observable result of one `handle_image` run: the user row
afterwards, the `ImageName` record created for this run (if any), the
output photos actually sent, and the text replies in order. -/
structure HandleResult where
  user : UserState
  action : Option ImageAction
  sentPhotos : List String
  replies : List String
  deriving DecidableEq, Repr

/-- Embeds the output loop of `handle_image`: before each send the user
row is re-fetched and `check_limit` is re-run; in the sequential model
the re-fetch returns `u` unchanged.  Returns (photos sent, `true` iff
the loop ran to completion rather than returning early). -/
def send_outputs (u : UserState) : List String → List String × Bool
  | [] => ([], true)
  | p :: rest =>
      if check_limit u then
        let r := send_outputs u rest
        (p :: r.1, r.2)
      else
        ([], false)

/-- Embeds `handle_image` (`message_handler.py`) in the sequential
model, parameterised by the download and worker outcomes.  Mirrors the
source order: quota and time-gate checks, timestamp claim, `ImageName`
creation, download, target-image branch, worker call, output loop,
quota decrement and the attempts-left reply computed from the
pre-decrement count. -/
def handle_image (u : UserState) (now : Int) (input_path : String)
    (dl : DownloadResult) (wk : WorkerResult) : HandleResult :=
  if check_limit u = false then
    { user := u, action := none, sentPhotos := [],
      replies := ["Sorry, you are out of attempts. Try again later"] }
  else if check_time_limit u now 20 = false then
    { user := u, action := none, sentPhotos := [],
      replies := ["Sorry, too many requests. Please wait " ++
        toString (20 - (now - u.last_photo_sent_timestamp)) ++
        " more seconds"] }
  else
    let u1 := { u with last_photo_sent_timestamp := now }
    let act : ImageAction :=
      { input_image_name := input_path, output_image_names := none }
    match dl with
    | DownloadResult.httpError =>
        { user := u1, action := some act, sentPhotos := [],
          replies := ["Failed to download image. Please try again"] }
    | DownloadResult.exn =>
        { user := u1, action := some act, sentPhotos := [],
          replies := ["Sorry must have been an error. Try again later."] }
    | DownloadResult.ok =>
        let tc := target_image_check u1 input_path
        if tc.2 then
          { user := tc.1, action := some act, sentPhotos := [],
            replies := ["Image received. Processing...",
                        "Target image uploaded, send your source image"] }
        else
          match wk with
          | WorkerResult.success paths =>
              let act2 : ImageAction :=
                { input_image_name := input_path,
                  output_image_names := some paths }
              let r := send_outputs tc.1 paths
              if r.2 then
                { user := decrement_requests_left tc.1 (paths.length : Int),
                  action := some act2, sentPhotos := r.1,
                  replies := ["Image received. Processing...",
                    "You have " ++
                      toString (max 0 (tc.1.requests_left - (paths.length : Int))) ++
                      " attempts left"] }
              else
                { user := tc.1, action := some act2, sentPhotos := r.1,
                  replies := ["Image received. Processing...",
                    "Sorry, you are out of attempts. Try again later"] }
          | WorkerResult.httpError =>
              { user := tc.1, action := some act, sentPhotos := [],
                replies := ["Image received. Processing...",
                            "Failed to process image. Please try again"] }
          | WorkerResult.exn =>
              { user := tc.1, action := some act, sentPhotos := [],
                replies := ["Image received. Processing...",
                            "Sorry must have been an error. Try again later."] }

/-- Embeds the `image_handler` closure registered in `setup_handlers`:
run `prevent_multisending` first; on acceptance delegate to
`handle_image`, otherwise reply "Please send one photo at a time.". -/
def image_handler (last_sent : Option Int) (u : UserState) (now : Int)
    (grouped : Bool) (input_path : String) (dl : DownloadResult)
    (wk : WorkerResult) : Option Int × HandleResult :=
  let pm := prevent_multisending last_sent now grouped
  if pm.2 then
    (pm.1, handle_image u now input_path dl wk)
  else
    (pm.1,
     { user := u, action := none, sentPhotos := [],
       replies := ["Please send one photo at a time."] })

/-- One quota-ledger operation, covering every mutation of the counters
in the sources: consume requests, consume target credits, buy premium,
the manual reset and the per-user reconciliation sweep. -/
inductive LedgerOp where
  | consume (n : Int)
  | consumeTargets (n : Int)
  | grant (today : Int)
  | reset (number : Int)
  | reconcile (free_requests : Int) (today : Int)
  deriving DecidableEq, Repr

/-- Applies one ledger operation to an account. -/
def applyOp (a : Account) : LedgerOp → Account
  | LedgerOp.consume n => { a with user := decrement_requests_left a.user n }
  | LedgerOp.consumeTargets n =>
      { a with user := decrement_targets_left a.user n }
  | LedgerOp.grant today => buy_premium a today
  | LedgerOp.reset number => (set_requests_left a number).1
  | LedgerOp.reconcile fr today => update_user_quotas_user a fr today

/-- Non-negative arguments for a ledger operation, as assumed by the
claims about counter non-negativity. -/
def opNonneg : LedgerOp → Bool
  | LedgerOp.consume n => decide (0 ≤ n)
  | LedgerOp.consumeTargets n => decide (0 ≤ n)
  | LedgerOp.grant _ => true
  | LedgerOp.reset number => decide (0 ≤ number)
  | LedgerOp.reconcile fr _ => decide (0 ≤ fr)

/-- The counter invariant: both counters are non-negative and every
stored purchase row has non-negative increments. -/
def Inv (a : Account) : Prop :=
  0 ≤ a.user.requests_left ∧ 0 ≤ a.user.targets_left ∧
    ∀ p ∈ a.purchases, 0 ≤ p.request_increment ∧ 0 ≤ p.targets_increment

/-- A free user down to a single request, past the time gate. -/
def oneLeftUser : UserState :=
  { status := "free", requests_left := 1, targets_left := 0,
    receive_target_flag := 0, mode := "1", premium_expiration := none,
    last_photo_sent_timestamp := -100 }

/-- A free user with five requests left, for the consume examples. -/
def consumeDemoUser : UserState := { defaultUser with requests_left := 5 }

/-- A premium user, for the time-gate waiver example. -/
def premiumUser : UserState := { defaultUser with status := "premium" }

/-- A premium user whose awaiting-target flag is set, past no gates. -/
def flaggedPremiumUser : UserState :=
  { status := "premium", requests_left := 110, targets_left := 10,
    receive_target_flag := 1, mode := "1", premium_expiration := some 30,
    last_photo_sent_timestamp := 0 }

/-- A freshly inserted account: default user row, no purchases. -/
def startAccount : Account := { user := defaultUser, purchases := [] }

/-- The start account after `buy_premium` on day 0. -/
def premiumAccount : Account := buy_premium startAccount 0

/-- The premium account after the premium user requests a custom target
upload (`set_receive_flag` sets the flag to 1). -/
def flaggedAccount : Account :=
  { user := (set_receive_flag premiumAccount.user).1,
    purchases := premiumAccount.purchases }

/-- A purchase made on day 0 that expires on day 30, with the standard
increments. -/
def purchaseDay0 : PremiumPurchase :=
  { purchase_date := 0, expiration_date := 30,
    targets_increment := 10, request_increment := 100 }

/-- A purchase made on day 5 that expires on day 35, with the standard
increments. -/
def purchaseDay5 : PremiumPurchase :=
  { purchase_date := 5, expiration_date := 35,
    targets_increment := 10, request_increment := 100 }

/-- A still-premium user row whose entitlement expired on day 30. -/
def premiumNoValidUser : UserState :=
  { status := "premium", requests_left := 110, targets_left := 10,
    receive_target_flag := 0, mode := "1", premium_expiration := some 30,
    last_photo_sent_timestamp := 0 }

/-- A still-premium account whose only purchase expired on day 30. -/
def premiumNoValidAccount : Account :=
  { user := premiumNoValidUser, purchases := [purchaseDay0] }

/-- A scheduler log whose last `update_user_quotas` run was at time 10. -/
def recentRunLog : List SchedulerLogEntry :=
  [{ job_name := "update_user_quotas", run_datetime := 10 }]

/-- A premium user row with 7 leftover target credits. -/
def leftoverTargetsUser : UserState :=
  { defaultUser with
    status := "premium", targets_left := 7, premium_expiration := some 30 }

/-- A premium account with leftover target credits whose only purchase
expired on day 30. -/
def expiredAccount : Account :=
  { user := leftoverTargetsUser, purchases := [purchaseDay0] }

/-- A premium account holding two concurrently valid purchases. -/
def validPurchaseAccount : Account :=
  { user := premiumUser, purchases := [purchaseDay0, purchaseDay5] }

/-- A sample sequence of ledger operations with non-negative arguments. -/
def demoOps : List LedgerOp :=
  [LedgerOp.grant 0, LedgerOp.consume 3, LedgerOp.reset 10,
   LedgerOp.reconcile 10 40, LedgerOp.consumeTargets 2]

theorem check_limit_iff (u : UserState) :
    check_limit u = true ↔ 0 < u.requests_left := by
  unfold check_limit
  split <;> simp <;> omega

theorem send_outputs_all (u : UserState) (paths : List String)
    (h : check_limit u = true) : send_outputs u paths = (paths, true) := by
  induction paths with
  | nil => rfl
  | cons p rest ih => simp [send_outputs, h, ih]

theorem decrement_requests_min (u : UserState) (n : Int) (hn : 0 ≤ n)
    (hr : 0 ≤ u.requests_left) :
    (decrement_requests_left u n).requests_left =
      u.requests_left - min n u.requests_left := by
  unfold decrement_requests_left
  split <;> simp <;> omega

theorem kept_filter_eq (l : List PremiumPurchase) (today : Int) :
    l.filter (fun p => decide (¬ p.expiration_date < today)) =
    l.filter (fun p => decide (today ≤ p.expiration_date)) := by
  apply List.filter_congr
  intro p _
  rw [decide_eq_decide]
  exact Int.not_lt

theorem active_filter_eq (l : List PremiumPurchase) (today : Int) :
    (l.filter (fun p => decide (¬ p.expiration_date < today))).filter
        (fun p => decide (today ≤ p.expiration_date)) =
    l.filter (fun p => decide (today ≤ p.expiration_date)) := by
  rw [kept_filter_eq, List.filter_filter]
  simp

theorem Inv_decrement_requests (u : UserState) (n : Int)
    (h : 0 ≤ u.targets_left) :
    0 ≤ (decrement_requests_left u n).requests_left ∧
    0 ≤ (decrement_requests_left u n).targets_left := by
  unfold decrement_requests_left
  split <;> simp [h]

theorem Inv_decrement_targets (u : UserState) (n : Int)
    (h : 0 ≤ u.requests_left) (h2 : 0 ≤ u.targets_left) :
    0 ≤ (decrement_targets_left u n).requests_left ∧
    0 ≤ (decrement_targets_left u n).targets_left := by
  unfold decrement_targets_left
  split <;> simp [h, h2]

theorem Inv_applyOp (a : Account) (op : LedgerOp) (ha : Inv a)
    (hop : opNonneg op = true) : Inv (applyOp a op) := by
  obtain ⟨h1, h2, h3⟩ := ha
  cases op with
  | consume n =>
      obtain ⟨g1, g2⟩ := Inv_decrement_requests a.user n h2
      exact ⟨g1, g2, h3⟩
  | consumeTargets n =>
      obtain ⟨g1, g2⟩ := Inv_decrement_targets a.user n h1 h2
      exact ⟨g1, g2, h3⟩
  | grant today =>
      refine ⟨by simp [applyOp, buy_premium]; omega,
              by simp [applyOp, buy_premium]; omega, ?_⟩
      intro p hp
      simp only [applyOp, buy_premium, List.mem_append] at hp
      rcases hp with hp | hp
      · exact h3 p hp
      · simp at hp
        subst hp
        exact ⟨by norm_num, by norm_num⟩
  | reset number =>
      exact ⟨h1, h2, h3⟩
  | reconcile fr today =>
      have hfr : 0 ≤ fr := by simpa [opNonneg] using hop
      have hkept : ∀ p ∈ a.purchases.filter
          (fun p => decide (¬ p.expiration_date < today)), p ∈ a.purchases :=
        fun p hp => (List.mem_filter.mp hp).1
      have hactive : ∀ p ∈ (a.purchases.filter
            (fun p => decide (¬ p.expiration_date < today))).filter
            (fun p => decide (today ≤ p.expiration_date)), p ∈ a.purchases :=
        fun p hp => hkept p (List.mem_filter.mp hp).1
      simp only [applyOp, update_user_quotas_user]
      split
      · exact ⟨hfr, h2, fun p hp => h3 p (hkept p hp)⟩
      · refine ⟨?_, ?_, fun p hp => h3 p (hkept p hp)⟩
        · apply List.sum_nonneg
          intro x hx
          obtain ⟨p, hp, hpx⟩ := List.mem_map.mp hx
          exact hpx ▸ (h3 p (hactive p hp)).1
        · apply List.sum_nonneg
          intro x hx
          obtain ⟨p, hp, hpx⟩ := List.mem_map.mp hx
          exact hpx ▸ (h3 p (hactive p hp)).2

theorem Inv_foldl (ops : List LedgerOp) (a : Account) (ha : Inv a)
    (hops : ∀ op ∈ ops, opNonneg op = true) :
    Inv (ops.foldl applyOp a) := by
  induction ops generalizing a with
  | nil => exact ha
  | cons op rest ih =>
      exact ih (applyOp a op)
        (Inv_applyOp a op ha (hops op (List.mem_cons_self op rest)))
        (fun o ho => hops o (List.mem_cons_of_mem op ho))

/-- C1 (counterexample): for a free user with `requests_left = 1` whose
photo yields 3 worker outputs, the handler sends all 3 outputs, not
exactly 1 — the per-output `check_limit` re-check reads a count that is
only decremented after the loop. -/
theorem single_quota_sends_all_counterexample :
    (handle_image oneLeftUser 0 "in" DownloadResult.ok
      (WorkerResult.success ["a", "b", "c"])).sentPhotos = ["a", "b", "c"] ∧
    ¬ (handle_image oneLeftUser 0 "in" DownloadResult.ok
      (WorkerResult.success ["a", "b", "c"])).sentPhotos.length = 1 := by
  decide

/-- C1 (amended): on worker success past a positive quota check, all
returned outputs are sent, the stored ImageAction output list holds the
full worker list, quota is decremented by the full output count clamped
at zero, and the reply names the clamped remaining count computed from
the pre-decrement value. -/
theorem success_flow (u : UserState) (now : Int) (ip : String)
    (paths : List String)
    (hcl : check_limit u = true)
    (hct : check_time_limit u now 20 = true)
    (hnt : ¬ (u.status = "premium" ∧ u.receive_target_flag ≠ 0)) :
    (handle_image u now ip DownloadResult.ok
      (WorkerResult.success paths)).sentPhotos = paths ∧
    (handle_image u now ip DownloadResult.ok
      (WorkerResult.success paths)).action =
      some { input_image_name := ip, output_image_names := some paths } ∧
    (handle_image u now ip DownloadResult.ok
      (WorkerResult.success paths)).user.requests_left =
      max 0 (u.requests_left - (paths.length : Int)) ∧
    ("You have " ++ toString (max 0 (u.requests_left - (paths.length : Int))) ++
      " attempts left") ∈
      (handle_image u now ip DownloadResult.ok
        (WorkerResult.success paths)).replies := by
  have hsend : send_outputs { u with last_photo_sent_timestamp := now } paths
      = (paths, true) := send_outputs_all _ paths hcl
  have hr : 0 < u.requests_left := (check_limit_iff u).mp hcl
  simp only [handle_image, hcl, hct, target_image_check]
  have hcond : ¬ (({ u with last_photo_sent_timestamp := now } :
      UserState).status = "premium" ∧
      ({ u with last_photo_sent_timestamp := now } :
        UserState).receive_target_flag ≠ 0) := hnt
  rw [if_neg hcond]
  simp only [Bool.false_eq_true, if_false, reduceCtorEq, hsend]
  simp [decrement_requests_left, hr]

/-- C1 (witness): `success_flow` instantiated at the free user with one
request left and three worker outputs. -/
theorem success_flow_witness :
    (handle_image oneLeftUser 0 "in" DownloadResult.ok
        (WorkerResult.success ["a", "b", "c"])).sentPhotos = ["a", "b", "c"] ∧
    (handle_image oneLeftUser 0 "in" DownloadResult.ok
        (WorkerResult.success ["a", "b", "c"])).action =
      some { input_image_name := "in",
             output_image_names := some ["a", "b", "c"] } ∧
    (handle_image oneLeftUser 0 "in" DownloadResult.ok
        (WorkerResult.success ["a", "b", "c"])).user.requests_left =
      max 0 (oneLeftUser.requests_left -
        (((["a", "b", "c"] : List String)).length : Int)) ∧
    ("You have " ++ toString (max 0 (oneLeftUser.requests_left -
        (((["a", "b", "c"] : List String)).length : Int))) ++
      " attempts left") ∈
      (handle_image oneLeftUser 0 "in" DownloadResult.ok
        (WorkerResult.success ["a", "b", "c"])).replies :=
  success_flow oneLeftUser 0 "in" ["a", "b", "c"]
    (by decide) (by decide) (by decide)

/-- C2 (counterexample): a reachable state violating the invariant —
buy premium on day 0, request a custom target upload, then let the
reconciliation sweep run on day 40 once the purchase has expired; the
user ends free with `receive_target_flag` still 1. -/
theorem flag_survives_free_reversion_counterexample :
    flaggedAccount.user.status = "premium" ∧
    flaggedAccount.user.receive_target_flag = 1 ∧
    (update_user_quotas_user flaggedAccount 10 40).user.status = "free" ∧
    (update_user_quotas_user flaggedAccount 10 40).user.receive_target_flag
      = 1 ∧
    ¬ ((update_user_quotas_user flaggedAccount 10 40).user.receive_target_flag
        ≠ 0 →
       (update_user_quotas_user flaggedAccount 10 40).user.status =
        "premium") := by
  decide

/-- C2 (amended): `set_receive_flag` turns the flag on only for premium
users; the manual reset mutates nothing for an existing user (its
`premium_purchases = None` assignment raises and the transaction rolls
back), so it preserves the invariant vacuously; but the reconciliation
sweep leaves `receive_target_flag` unchanged while reverting the tier,
so the flag-only-while-premium invariant is not preserved by it. -/
theorem flag_set_premium_only_not_cleared_on_reversion :
    (∀ u : UserState, u.status ≠ "premium" → (set_receive_flag u).1 = u) ∧
    (∀ u : UserState, u.status = "premium" →
      (set_receive_flag u).1.receive_target_flag = 1 ∧
      (set_receive_flag u).1.status = "premium") ∧
    (∀ (a : Account) (n : Int), (set_requests_left a n).1 = a) ∧
    (∀ (a : Account) (fr today : Int),
      (update_user_quotas_user a fr today).user.receive_target_flag =
        a.user.receive_target_flag) := by
  refine ⟨?_, ?_, ?_, ?_⟩
  · intro u h
    simp [set_receive_flag, h]
  · intro u h
    simp [set_receive_flag, toggle_receive_target_flag, h]
  · intro a n
    rfl
  · intro a fr today
    simp only [update_user_quotas_user]
    split <;> rfl

/-- C2 (witness): `flag_set_premium_only_not_cleared_on_reversion`
instantiated on the default free user, the premium account and the
flagged account. -/
theorem flag_set_premium_only_witness :
    (set_receive_flag defaultUser).1 = defaultUser ∧
    (set_receive_flag premiumAccount.user).1.receive_target_flag = 1 ∧
    (set_requests_left flaggedAccount 10).1 = flaggedAccount ∧
    (update_user_quotas_user flaggedAccount 10 40).user.receive_target_flag =
      flaggedAccount.user.receive_target_flag :=
  ⟨flag_set_premium_only_not_cleared_on_reversion.1 defaultUser (by decide),
   (flag_set_premium_only_not_cleared_on_reversion.2.1 premiumAccount.user
     (by decide)).1,
   flag_set_premium_only_not_cleared_on_reversion.2.2.1 flaggedAccount 10,
   flag_set_premium_only_not_cleared_on_reversion.2.2.2 flaggedAccount 10 40⟩

/-- C3 (counterexample): `decrement_requests_left` does decrement by
`min(n, requests_left)` but returns `None`, not the post-decrement
remaining count — at 5 requests and n = 2 the new count is 3 while the
returned value is `none`. -/
theorem consume_requests_returns_none_counterexample :
    (decrement_requests_left_full consumeDemoUser 2).1.requests_left = 3 ∧
    (decrement_requests_left_full consumeDemoUser 2).2 = none ∧
    ¬ (decrement_requests_left_full consumeDemoUser 2).2 =
        some (decrement_requests_left_full consumeDemoUser 2).1.requests_left := by
  decide

/-- C3 (amended): for every user with a non-negative count and every
n ≥ 0, `decrement_requests_left` decrements `requests_left` by exactly
`min(n, requests_left)`, never below zero, and returns no value
(`None`); callers must recompute the remaining count themselves. -/
theorem consume_requests_behavior (u : UserState) (n : Int) (hn : 0 ≤ n)
    (hr : 0 ≤ u.requests_left) :
    (decrement_requests_left u n).requests_left =
      u.requests_left - min n u.requests_left ∧
    0 ≤ (decrement_requests_left u n).requests_left ∧
    (decrement_requests_left_full u n).2 = none := by
  have h := decrement_requests_min u n hn hr
  refine ⟨h, ?_, rfl⟩
  rw [h]
  omega

/-- C3 (witness): `consume_requests_behavior` instantiated at 5
requests left and n = 2. -/
theorem consume_requests_behavior_witness :
    (decrement_requests_left consumeDemoUser 2).requests_left =
      consumeDemoUser.requests_left - min 2 consumeDemoUser.requests_left ∧
    (decrement_requests_left_full consumeDemoUser 2).2 = none :=
  ⟨(consume_requests_behavior consumeDemoUser 2 (by decide) (by decide)).1,
   (consume_requests_behavior consumeDemoUser 2 (by decide) (by decide)).2.2⟩

/-- C4: the reconciliation rule — with no purchase row valid at `today`
the user is reverted to free tier with the default quota and a cleared
premium expiration regardless of prior tier; with valid rows present
the counters are set to the summed increments and the status field is
left unchanged (so a premium user stays premium). -/
theorem quota_reconciliation_rule (a : Account) (fr today : Int) :
    (a.purchases.filter (fun p => decide (today ≤ p.expiration_date)) = [] →
      (update_user_quotas_user a fr today).user.status = "free" ∧
      (update_user_quotas_user a fr today).user.requests_left = fr ∧
      (update_user_quotas_user a fr today).user.premium_expiration = none) ∧
    (a.purchases.filter (fun p => decide (today ≤ p.expiration_date)) ≠ [] →
      (update_user_quotas_user a fr today).user.requests_left =
        ((a.purchases.filter (fun p => decide (today ≤ p.expiration_date))).map
          (fun p => p.request_increment)).sum ∧
      (update_user_quotas_user a fr today).user.targets_left =
        ((a.purchases.filter (fun p => decide (today ≤ p.expiration_date))).map
          (fun p => p.targets_increment)).sum ∧
      (update_user_quotas_user a fr today).user.status = a.user.status) := by
  have hact := active_filter_eq a.purchases today
  constructor
  · intro h
    simp only [update_user_quotas_user, hact, h]
    simp
  · intro h
    have hne : (a.purchases.filter
        (fun p => decide (today ≤ p.expiration_date))).isEmpty = false :=
      List.isEmpty_eq_false.mpr h
    simp only [update_user_quotas_user, hact, hne]
    simp

/-- C4 (witness): `quota_reconciliation_rule` applied to an account
whose only purchase is expired (free reversion) and to an account with
two valid purchases (summed increments, status preserved). -/
theorem quota_reconciliation_rule_witness :
    (update_user_quotas_user expiredAccount 10 40).user.status = "free" ∧
    (update_user_quotas_user validPurchaseAccount 10 10).user.requests_left =
      ((validPurchaseAccount.purchases.filter
          (fun p => decide ((10 : Int) ≤ p.expiration_date))).map
        (fun p => p.request_increment)).sum ∧
    (update_user_quotas_user validPurchaseAccount 10 10).user.status =
      validPurchaseAccount.user.status :=
  ⟨((quota_reconciliation_rule expiredAccount 10 40).1 (by decide)).1,
   ((quota_reconciliation_rule validPurchaseAccount 10 10).2 (by decide)).1,
   ((quota_reconciliation_rule validPurchaseAccount 10 10).2 (by decide)).2.2⟩

/-- C5: after any sequence of ledger operations with non-negative
arguments starting from a state satisfying the counter invariant,
`requests_left` and `targets_left` are non-negative. -/
theorem counters_never_negative (ops : List LedgerOp) (a : Account)
    (ha : Inv a) (hops : ∀ op ∈ ops, opNonneg op = true) :
    0 ≤ (ops.foldl applyOp a).user.requests_left ∧
    0 ≤ (ops.foldl applyOp a).user.targets_left :=
  ⟨(Inv_foldl ops a ha hops).1, (Inv_foldl ops a ha hops).2.1⟩

/-- C5 (witness): `counters_never_negative` on a fresh account and a
concrete operation sequence exercising every operation kind. -/
theorem counters_never_negative_witness :
    0 ≤ (demoOps.foldl applyOp startAccount).user.requests_left ∧
    0 ≤ (demoOps.foldl applyOp startAccount).user.targets_left :=
  counters_never_negative demoOps startAccount
    ⟨by decide, by decide, by decide⟩ (by decide)

/-- C6: when the worker call fails (non-success HTTP status, or an
exception covering transport failure and timeout), `requests_left` is
unchanged, the ImageAction record keeps an empty output, no photo is
sent, and the user receives one of the retryable-error replies. -/
theorem worker_failure_preserves_quota (u : UserState) (now : Int)
    (ip : String) (wk : WorkerResult)
    (hcl : check_limit u = true)
    (hct : check_time_limit u now 20 = true)
    (hnt : ¬ (u.status = "premium" ∧ u.receive_target_flag ≠ 0))
    (hwk : wk = WorkerResult.httpError ∨ wk = WorkerResult.exn) :
    (handle_image u now ip DownloadResult.ok wk).user.requests_left =
      u.requests_left ∧
    (handle_image u now ip DownloadResult.ok wk).action =
      some { input_image_name := ip, output_image_names := none } ∧
    (handle_image u now ip DownloadResult.ok wk).sentPhotos = [] ∧
    ((handle_image u now ip DownloadResult.ok wk).replies =
        ["Image received. Processing...",
         "Failed to process image. Please try again"] ∨
     (handle_image u now ip DownloadResult.ok wk).replies =
        ["Image received. Processing...",
         "Sorry must have been an error. Try again later."]) := by
  rcases hwk with h | h <;> subst h <;>
    simp [handle_image, hcl, hct, target_image_check, hnt]

/-- C6 (witness): `worker_failure_preserves_quota` at the default free
user with a non-success worker response. -/
theorem worker_failure_preserves_quota_witness :
    (handle_image defaultUser 100 "in" DownloadResult.ok
      WorkerResult.httpError).user.requests_left =
      defaultUser.requests_left ∧
    (handle_image defaultUser 100 "in" DownloadResult.ok
      WorkerResult.httpError).action =
      some { input_image_name := "in", output_image_names := none } :=
  ⟨(worker_failure_preserves_quota defaultUser 100 "in"
      WorkerResult.httpError (by decide) (by decide) (by decide)
      (Or.inl rfl)).1,
   (worker_failure_preserves_quota defaultUser 100 "in"
      WorkerResult.httpError (by decide) (by decide) (by decide)
      (Or.inl rfl)).2.1⟩

/-- C7: grouped submissions are always rejected with the
send-one-at-a-time reply and no state change; two single photo events
1 time unit apart (with `DELAY_BETWEEN_IMAGES = 2`) yield exactly one
acceptance and one rejection; and the 20-unit time gate is waived for
premium users. -/
theorem rate_limit_checks :
    (∀ (last_sent : Option Int) (u : UserState) (now : Int) (ip : String)
        (dl : DownloadResult) (wk : WorkerResult),
      (image_handler last_sent u now true ip dl wk).2.replies =
        ["Please send one photo at a time."] ∧
      (image_handler last_sent u now true ip dl wk).2.user = u) ∧
    ((prevent_multisending none 0 false).2 = true ∧
     (prevent_multisending none 0 false).1 = some 0 ∧
     (prevent_multisending (some 0) 1 false).2 = false) ∧
    (∀ (u : UserState) (now : Int),
      u.status = "premium" → check_time_limit u now 20 = true) := by
  refine ⟨?_, ?_, ?_⟩
  · intro last_sent u now ip dl wk
    simp [image_handler, prevent_multisending]
  · refine ⟨rfl, rfl, ?_⟩
    decide
  · intro u now h
    simp [check_time_limit, h]

/-- C7 (witness): `rate_limit_checks` instantiated on a grouped event
and on a premium user. -/
theorem rate_limit_checks_witness :
    (image_handler none defaultUser 0 true "in" DownloadResult.ok
      WorkerResult.httpError).2.replies =
      ["Please send one photo at a time."] ∧
    check_time_limit premiumUser 0 20 = true :=
  ⟨(rate_limit_checks.1 none defaultUser 0 "in" DownloadResult.ok
      WorkerResult.httpError).1,
   rate_limit_checks.2.2 premiumUser 0 (by decide)⟩

/-- C8: a premium user with the awaiting-target flag set who uploads a
photo gets the photo stored as the active target mode, the flag
cleared, quota and target credits untouched, no photo sent, the
target-stored reply, and a result independent of the worker outcome
(no worker call). -/
theorem target_upload_flow (u : UserState) (now : Int) (ip : String)
    (wk wk' : WorkerResult)
    (hcl : check_limit u = true)
    (hct : check_time_limit u now 20 = true)
    (hprem : u.status = "premium")
    (hflag : u.receive_target_flag ≠ 0) :
    (handle_image u now ip DownloadResult.ok wk).user.mode = ip ∧
    (handle_image u now ip DownloadResult.ok wk).user.receive_target_flag
      = 0 ∧
    (handle_image u now ip DownloadResult.ok wk).user.requests_left =
      u.requests_left ∧
    (handle_image u now ip DownloadResult.ok wk).user.targets_left =
      u.targets_left ∧
    (handle_image u now ip DownloadResult.ok wk).user.status = "premium" ∧
    (handle_image u now ip DownloadResult.ok wk).sentPhotos = [] ∧
    "Target image uploaded, send your source image" ∈
      (handle_image u now ip DownloadResult.ok wk).replies ∧
    handle_image u now ip DownloadResult.ok wk =
      handle_image u now ip DownloadResult.ok wk' := by
  simp [handle_image, hcl, hct, target_image_check,
    toggle_receive_target_flag, update_user_mode, hprem, hflag]

/-- C8 (witness): `target_upload_flow` at a flagged premium user. -/
theorem target_upload_flow_witness :
    (handle_image flaggedPremiumUser 0 "tgt" DownloadResult.ok
      WorkerResult.httpError).user.mode = "tgt" ∧
    (handle_image flaggedPremiumUser 0 "tgt" DownloadResult.ok
      WorkerResult.httpError).user.receive_target_flag = 0 ∧
    (handle_image flaggedPremiumUser 0 "tgt" DownloadResult.ok
      WorkerResult.httpError).user.targets_left =
      flaggedPremiumUser.targets_left :=
  ⟨(target_upload_flow flaggedPremiumUser 0 "tgt" WorkerResult.httpError
      WorkerResult.exn (by decide) (by decide) (by decide) (by decide)).1,
   (target_upload_flow flaggedPremiumUser 0 "tgt" WorkerResult.httpError
      WorkerResult.exn (by decide) (by decide) (by decide) (by decide)).2.1,
   (target_upload_flow flaggedPremiumUser 0 "tgt" WorkerResult.httpError
      WorkerResult.exn (by decide) (by decide) (by decide) (by decide)).2.2.2.1⟩

/-- C9 (counterexample): with a run-log entry 1 time unit old and an
interval of 5, the job still mutates user state (a premium account
with only an expired purchase is reverted to free) while writing no
run record — the interval check does not skip the sweep. -/
theorem sweep_not_skipped_counterexample :
    (update_user_quotas_job [premiumNoValidAccount] recentRunLog
      10 40 5 11).2 = recentRunLog ∧
    (update_user_quotas_job [premiumNoValidAccount] recentRunLog
      10 40 5 11).1.map (fun a => a.user.status) = ["free"] ∧
    ¬ (update_user_quotas_job [premiumNoValidAccount] recentRunLog
      10 40 5 11).1 = [premiumNoValidAccount] := by
  decide

/-- C9 (amended): the reconciliation job sweeps every user
unconditionally; only the run-record write is guarded by the interval
check — exactly one record is appended when no prior record exists or
the interval has elapsed since the last one, none otherwise, and never
one record per user (the log outcome is independent of the account
list). -/
theorem reconciliation_job_sweeps_unconditionally
    (accounts : List Account) (logs : List SchedulerLogEntry)
    (fr today td log_now : Int) :
    (update_user_quotas_job accounts logs fr today td log_now).1 =
      accounts.map (fun a => update_user_quotas_user a fr today) ∧
    ((update_user_quotas_job accounts logs fr today td log_now).2 =
        logs ++ [{ job_name := "update_user_quotas",
                   run_datetime := log_now }] ∨
     (update_user_quotas_job accounts logs fr today td log_now).2 = logs) ∧
    (∀ t, last_run_datetime logs "update_user_quotas" = some t →
      (log_now - t ≥ td →
        (update_user_quotas_job accounts logs fr today td log_now).2 =
          logs ++ [{ job_name := "update_user_quotas",
                     run_datetime := log_now }]) ∧
      (¬ log_now - t ≥ td →
        (update_user_quotas_job accounts logs fr today td log_now).2 =
          logs)) ∧
    (last_run_datetime logs "update_user_quotas" = none →
      (update_user_quotas_job accounts logs fr today td log_now).2 =
        logs ++ [{ job_name := "update_user_quotas",
                   run_datetime := log_now }]) := by
  refine ⟨rfl, ?_, ?_, ?_⟩
  · simp only [update_user_quotas_job, log_scheduler_run]
    split
    · exact Or.inl rfl
    · split
      · exact Or.inl rfl
      · exact Or.inr rfl
  · intro t ht
    refine ⟨?_, ?_⟩ <;> intro hcond <;>
      simp only [update_user_quotas_job, log_scheduler_run, ht] <;>
      simp [hcond]
  · intro hnone
    simp only [update_user_quotas_job, log_scheduler_run, hnone]

/-- C9 (witness): `reconciliation_job_sweeps_unconditionally` on the
recent run-log with an elapsed interval (one record appended), a
not-yet-elapsed interval (no record), and an empty log (one record). -/
theorem reconciliation_job_logging_witness :
    (update_user_quotas_job [premiumNoValidAccount] recentRunLog
        10 40 5 20).2 =
      recentRunLog ++ [{ job_name := "update_user_quotas",
                         run_datetime := 20 }] ∧
    (update_user_quotas_job [premiumNoValidAccount] recentRunLog
        10 40 5 11).2 = recentRunLog ∧
    (update_user_quotas_job [] ([] : List SchedulerLogEntry)
        10 40 5 7).2 =
      [] ++ [{ job_name := "update_user_quotas", run_datetime := 7 }] :=
  ⟨((reconciliation_job_sweeps_unconditionally [premiumNoValidAccount]
      recentRunLog 10 40 5 20).2.2.1 10 (by decide)).1 (by decide),
   ((reconciliation_job_sweeps_unconditionally [premiumNoValidAccount]
      recentRunLog 10 40 5 11).2.2.1 10 (by decide)).2 (by decide),
   (reconciliation_job_sweeps_unconditionally [] []
      10 40 5 7).2.2.2 (by decide)⟩

/-- C10: the reconciliation free-reversion path sets status to free,
resets `requests_left` to the default free quota and clears
`premium_expiration`, but leaves `targets_left` at its previous
value. -/
theorem free_reversion_keeps_targets (a : Account) (fr today : Int)
    (h : ∀ p ∈ a.purchases, p.expiration_date < today) :
    (update_user_quotas_user a fr today).user.status = "free" ∧
    (update_user_quotas_user a fr today).user.requests_left = fr ∧
    (update_user_quotas_user a fr today).user.premium_expiration = none ∧
    (update_user_quotas_user a fr today).user.targets_left =
      a.user.targets_left := by
  have hnil : a.purchases.filter
      (fun p => decide (today ≤ p.expiration_date)) = [] := by
    rw [List.filter_eq_nil_iff]
    intro p hp
    simpa using Int.not_le.mpr (h p hp)
  have hact := active_filter_eq a.purchases today
  simp only [update_user_quotas_user, hact, hnil]
  simp

/-- C10 (witness): `free_reversion_keeps_targets` at a premium account
with 7 leftover target credits and an expired purchase. -/
theorem free_reversion_keeps_targets_witness :
    (update_user_quotas_user expiredAccount 10 40).user.targets_left =
      expiredAccount.user.targets_left ∧
    (update_user_quotas_user expiredAccount 10 40).user.requests_left = 10 :=
  ⟨(free_reversion_keeps_targets expiredAccount 10 40 (by decide)).2.2.2,
   (free_reversion_keeps_targets expiredAccount 10 40 (by decide)).2.1⟩

end FaceswapBot
